import Mathlib

/-!
Shallow embedding of the smtpd SMTP server core (package smtpd) and of the
XOAUTH2 client auth mechanism (package auth), with theorems checking the
specification claims against the code.
-/

namespace Smtpd

/-- Errors as the session sees them: either a typed SMTP error (a Go
textproto.Error carrying a code and a message) or any other error value,
reduced to its text. -/
inductive GoError where
  | smtp (code : Nat) (msg : String)
  | other (text : String)
deriving DecidableEq, Repr

/-- Zero padding of Go fmt %03d, used by textproto.Error.Error for the code. -/
def pad3 (n : Nat) : String :=
  let s := toString n
  if s.length < 3 then String.mk (List.replicate (3 - s.length) '0') ++ s else s

/-- Go textproto.Error.Error(): Sprintf of %03d, a space, and the message;
any other error is its own text. -/
def GoError.text : GoError → String
  | .smtp code msg => pad3 code ++ " " ++ msg
  | .other t => t

def crlf : String := "\r\n"

/-- session.reply: Fprintf of %d, a space, %s and CRLF onto the writer. -/
def replyLine (code : Nat) (message : String) : String :=
  toString code ++ " " ++ message ++ crlf

/-- session.error: a typed textproto error is written as its own text plus
CRLF (the code is already prefixed inside Error()); any other error goes
through session.reply with code 502 and the error text. -/
def sessionErrorLine (e : GoError) : String :=
  match e with
  | .smtp _ _ => e.text ++ crlf
  | .other _ => replyLine 502 e.text

/-- Modelled from the spec: the typed busy error (code 421) from the
repository error table, whose defining file is not under src/. -/
def ErrBusy : GoError := .smtp 421 "Too busy. Try again later."

/-- Modelled from the spec: the typed line-too-long error (code 500) from the
repository error table, whose defining file is not under src/. -/
def ErrLineTooLong : GoError := .smtp 500 "Line too long"

/-- The configuration fields of Server that the claims touch. The
function-valued field Authenticator and the pointer field TLSConfig are
modelled by their presence. Durations are nanoseconds, as in Go. -/
structure ServerCfg where
  hostname : String
  welcomeMessage : String
  readTimeout : Int
  writeTimeout : Int
  dataTimeout : Int
  maxConnections : Int
  maxMessageSize : Int
  maxRecipients : Int
  hasAuthenticator : Bool
  enableXCLIENT : Bool
  hasTLSConfig : Bool
  forceTLS : Bool
deriving DecidableEq, Repr

/-- The numeric default assignments of Server.configureDefaults: each field is
replaced by its default exactly when it is zero. The Go code performs these
six independent field updates in sequence. -/
def withDefaultSizes (srv : ServerCfg) : ServerCfg :=
  { srv with
    maxMessageSize := if srv.maxMessageSize = 0 then 10240000 else srv.maxMessageSize,
    maxConnections := if srv.maxConnections = 0 then 100 else srv.maxConnections,
    maxRecipients := if srv.maxRecipients = 0 then 100 else srv.maxRecipients,
    readTimeout := if srv.readTimeout = 0 then 60 * 1000000000 else srv.readTimeout,
    writeTimeout := if srv.writeTimeout = 0 then 60 * 1000000000 else srv.writeTimeout,
    dataTimeout := if srv.dataTimeout = 0 then 300 * 1000000000 else srv.dataTimeout }

/-- The name default assignments of Server.configureDefaults: the hostname is
defaulted first and the welcome message is built from the updated hostname. -/
def withDefaultNames (srv : ServerCfg) : ServerCfg :=
  let h := if srv.hostname = "" then "localhost.localdomain" else srv.hostname
  { srv with
    hostname := h,
    welcomeMessage :=
      if srv.welcomeMessage = "" then h ++ " ESMTP ready." else srv.welcomeMessage }

/-- Server.configureDefaults. ForceTLS without a TLSConfig hits log.Fatal,
which aborts the process; that outcome is none here. -/
def configureDefaults (srv : ServerCfg) : Option ServerCfg :=
  let srv := withDefaultSizes srv
  if srv.forceTLS && !srv.hasTLSConfig then none
  else some (withDefaultNames srv)

/-- Server.Serve creates the limiter channel only when MaxConnections is
positive after defaults: its capacity, or none when the cap is disabled. -/
def limiterCapacity (srv : ServerCfg) : Option Nat :=
  if srv.maxConnections > 0 then some srv.maxConnections.toNat else none

/-- session.extensions: the EHLO extension list, in the order built by the
code. -/
def extensions (srv : ServerCfg) (sessionTLS : Bool) : List String :=
  let exts := ["SIZE " ++ toString srv.maxMessageSize, "8BITMIME", "PIPELINING"]
  let exts := if srv.enableXCLIENT then exts ++ ["XCLIENT"] else exts
  let exts := if srv.hasTLSConfig && !sessionTLS then exts ++ ["STARTTLS"] else exts
  let exts := if srv.hasAuthenticator && sessionTLS then exts ++ ["AUTH PLAIN LOGIN"] else exts
  exts

/-- TLS connection state as obtained from ConnectionState after the
handshake. -/
structure TLSState where
  version : Nat
deriving DecidableEq, Repr

/-- A net.Conn handed to the server: either a plain connection, or already a
tls.Conn (as when the listener came from tls.Listen) whose forced handshake
yields the given connection state. -/
inductive Conn where
  | plain (remoteAddr : String)
  | tls (remoteAddr : String) (state : TLSState)
deriving DecidableEq, Repr

def Conn.remoteAddr : Conn → String
  | .plain a => a
  | .tls a _ => a

/-- The Peer record fields the claims touch. -/
structure PeerRec where
  addr : String
  tlsState : Option TLSState
  heloName : String
  username : String
  password : String
  serverName : String
deriving DecidableEq, Repr

/-- An in-progress envelope (created on MAIL FROM). -/
structure EnvelopeRec where
  sender : String
  recipients : List String
  data : List String
deriving DecidableEq, Repr

/-- The session fields the claims touch: the peer, the TLS-active flag, the
current envelope, the bytes remaining in the buffered reader, and whether the
connection has been closed. -/
structure SessionRec where
  peer : PeerRec
  tls : Bool
  envelope : Option EnvelopeRec
  input : List Char
  closed : Bool
deriving DecidableEq, Repr

/-- Server.newSession: builds the session over the connection; when the
connection is already a tls.Conn, the handshake is forced and its connection
state recorded into the peer before anything else runs. -/
def newSession (srv : ServerCfg) (c : Conn) (input : List Char) : SessionRec :=
  let base : SessionRec :=
    { peer := { addr := c.remoteAddr, tlsState := none, heloName := "",
                username := "", password := "", serverName := srv.hostname },
      tls := false, envelope := none, input := input, closed := false }
  match c with
  | .plain _ => base
  | .tls _ state =>
      { base with tls := true, peer := { base.peer with tlsState := some state } }

/-- The newline byte, the delimiter passed to bufio.Reader.ReadString. -/
def newlineChar : Char := '\n'

/-- bufio.Reader.ReadString up to and including the next newline: the bytes
left in the reader afterwards (everything is consumed when no newline is
present). -/
def readPastNewline : List Char → List Char
  | [] => []
  | c :: rest => if c = '\n' then rest else readPastNewline rest

/-- Why session.scanner.Scan stopped returning lines. -/
inductive ScanStop where
  | eof
  | tooLong
  | ioErr (msg : String)
deriving DecidableEq, Repr

/-- One observable session output action. -/
inductive Out where
  | wrote (s : String)
  | closedConn
deriving DecidableEq, Repr

/-- The tail of the command loop in session.serve, entered when the scanner
stops: on bufio.ErrTooLong the session replies with ErrLineTooLong, advances
the reader past the next newline, rebuilds the scanner over the same buffered
reader, resets the envelope, and continues the loop (third component true);
on any other stop it breaks out and the deferred close runs. -/
def handleScanStop (s : SessionRec) (stop : ScanStop) :
    List Out × SessionRec × Bool :=
  match stop with
  | .tooLong =>
      ([.wrote (sessionErrorLine ErrLineTooLong)],
       { s with envelope := none, input := readPastNewline s.input }, true)
  | _ => ([.closedConn], { s with closed := true }, false)

/-- session.reject: reply with the typed busy error, then close the
connection. -/
def rejectOutputs : List Out :=
  [.wrote (sessionErrorLine ErrBusy), .closedConn]

/-- The admission state of the accept loop for a limiter of capacity N: the
number of session tasks currently holding a slot, i.e. currently executing
session.serve. -/
structure SupState where
  active : Nat
deriving DecidableEq, Repr

inductive SupEvent where
  | acquire
  | reject
  | finish
deriving DecidableEq, Repr

/-- The semantics of the per-connection goroutine in Server.Serve when the
limiter channel exists (capacity N): the select admits the session, sending on
the buffered channel, exactly when fewer than N slots are held; when the
channel is full the default branch runs session.reject without queueing; a
session that returns releases its slot. -/
inductive SupStep (N : Nat) : SupState → SupEvent → SupState → Prop where
  | acquire (s : SupState) (h : s.active < N) : SupStep N s .acquire ⟨s.active + 1⟩
  | reject (s : SupState) (h : N ≤ s.active) : SupStep N s .reject s
  | finish (s : SupState) (a : Nat) (h : s.active = a + 1) : SupStep N s .finish ⟨a⟩

/-- States reachable from an idle accept loop (no slot held). -/
inductive SupReach (N : Nat) : SupState → Prop where
  | init : SupReach N ⟨0⟩
  | step {s t : SupState} {e : SupEvent} :
      SupReach N s → SupStep N s e t → SupReach N t

/-- onceCloseListener: wraps a listener so its Close runs only once; the first
result is stored and returned by every later call. -/
structure OnceCloseListener where
  fired : Bool
  closeErr : Option String
deriving DecidableEq, Repr

/-- onceCloseListener.Close. underlyingErr is what the wrapped listener Close
returns when it runs; the Bool reports whether the underlying Close ran on
this call. -/
def OnceCloseListener.closeOp (oc : OnceCloseListener) (underlyingErr : Option String) :
    OnceCloseListener × Bool × Option String :=
  if oc.fired then (oc, false, oc.closeErr)
  else ({ fired := true, closeErr := underlyingErr }, true, underlyingErr)

/-- The supervisor fields of Server relevant to shutdown: the atomic
inShutdown flag, the lazily created done channel (closed at most once, under
the mutex), the wrapped listener, and the wait-group counter of outstanding
session tasks. doneCloseCount and underlyingCloseCount are ghost counters
recording how often the channel close and the underlying listener Close
actually ran. -/
structure ServerState where
  inShutdown : Bool
  doneCreated : Bool
  doneClosed : Bool
  doneCloseCount : Nat
  listener : Option OnceCloseListener
  underlyingCloseCount : Nat
  pending : Nat
deriving DecidableEq, Repr

/-- Server.getDoneChanLocked: create the done channel if absent. -/
def getDoneChanLocked (s : ServerState) : ServerState :=
  if s.doneCreated then s else { s with doneCreated := true }

/-- Server.closeDoneChanLocked: close the done channel unless it is already
closed. -/
def closeDoneChanLocked (s : ServerState) : ServerState :=
  let s := getDoneChanLocked s
  if s.doneClosed then s
  else { s with doneClosed := true, doneCloseCount := s.doneCloseCount + 1 }

/-- Server.shuttingDown: the atomic flag. -/
def shuttingDown (s : ServerState) : Bool := s.inShutdown

/-- Server.Shutdown: set the flag, close the listener through the once-closer
(its result is the return value), close the done channel. The wait branch
blocks on the wait group without changing any of this state, so it does not
appear here. -/
def Shutdown (s : ServerState) (underlyingErr : Option String) :
    ServerState × Option String :=
  let s1 := { s with inShutdown := true }
  let step2 :=
    match s1.listener with
    | none => (s1, none)
    | some oc =>
        let r := oc.closeOp underlyingErr
        ({ s1 with listener := some r.1,
                   underlyingCloseCount :=
                     s1.underlyingCloseCount + (if r.2.1 then 1 else 0) }, r.2.2)
  (closeDoneChanLocked step2.1, step2.2)

def waitNotShutdownMsg : String := "Server has not been Shutdown"

/-- Server.Wait as a returns-relation: with the flag unset it returns the
error at once; with the flag set, waitgrp.Wait blocks, so Wait can return
(with nil) only in a state where no session task is outstanding. -/
inductive WaitReturns : ServerState → Option String → Prop where
  | notShutdown (s : ServerState) (h : s.inShutdown = false) :
      WaitReturns s (some waitNotShutdownMsg)
  | allDone (s : ServerState) (h1 : s.inShutdown = true) (h2 : s.pending = 0) :
      WaitReturns s none

def errServerClosedMsg : String := "smtp: Server closed"

/-- An outcome of one listener Accept call, scripting the accept loop. -/
inductive AcceptEvent where
  | conn
  | closedErr
  | temporary
deriving DecidableEq, Repr

/-- What a call to Serve or ListenAndServe did: whether ListenAndServe
created a listener, whether the accept loop was entered, how many connections
were accepted, and the returned error. -/
structure CallTrace where
  listenerCreated : Bool
  loopEntered : Bool
  accepted : Nat
  result : Option String
deriving DecidableEq, Repr

/-- The accept loop of Server.Serve over a script of accept outcomes: each
accepted connection spawns a session task (counted); a temporary error sleeps
and retries; a closed-listener error returns ErrServerClosed when the done
channel is closed (the doneClosedAtErr flag), otherwise the raw error. An
exhausted script is the loop blocking in Accept. -/
def acceptLoop (doneClosedAtErr : Bool) : List AcceptEvent → Nat → Nat × Option String
  | [], acc => (acc, none)
  | .conn :: rest, acc => acceptLoop doneClosedAtErr rest (acc + 1)
  | .closedErr :: _, acc =>
      (acc, if doneClosedAtErr then some errServerClosedMsg
            else some "use of closed network connection")
  | .temporary :: rest, acc => acceptLoop doneClosedAtErr rest acc

/-- Server.Serve: return ErrServerClosed immediately when the server is
shutting down; otherwise materialize defaults (log.Fatal is none), wrap the
listener, and run the accept loop. -/
def Serve (s : ServerState) (srv : ServerCfg) (script : List AcceptEvent)
    (doneClosedAtErr : Bool) : Option CallTrace :=
  if shuttingDown s then
    some { listenerCreated := false, loopEntered := false, accepted := 0,
           result := some errServerClosedMsg }
  else
    match configureDefaults srv with
    | none => none
    | some _ =>
        let r := acceptLoop doneClosedAtErr script 0
        some { listenerCreated := false, loopEntered := true, accepted := r.1,
               result := r.2 }

/-- Server.ListenAndServe: the same shutting-down guard, then create the
listener (listenErr is the result of net Listen) and delegate to Serve. -/
def ListenAndServe (s : ServerState) (srv : ServerCfg) (listenErr : Option String)
    (script : List AcceptEvent) (doneClosedAtErr : Bool) : Option CallTrace :=
  if shuttingDown s then
    some { listenerCreated := false, loopEntered := false, accepted := 0,
           result := some errServerClosedMsg }
  else
    match listenErr with
    | some e =>
        some { listenerCreated := false, loopEntered := false, accepted := 0,
               result := some e }
    | none =>
        (Serve s srv script doneClosedAtErr).map
          (fun t => { t with listenerCreated := true })

/-- A freshly served supervisor state: listener wrapped and not yet closed,
done channel not created, no outstanding session task. -/
def freshServedState : ServerState :=
  { inShutdown := false, doneCreated := false, doneClosed := false,
    doneCloseCount := 0, listener := some { fired := false, closeErr := none },
    underlyingCloseCount := 0, pending := 0 }

/-- A state in which Shutdown has completed and every session task has
returned. -/
def drainedShutdownState : ServerState :=
  { inShutdown := true, doneCreated := true, doneClosed := true,
    doneCloseCount := 1, listener := some { fired := true, closeErr := none },
    underlyingCloseCount := 1, pending := 0 }

/-- The zero server configuration: every field zero, empty or false. -/
def zeroCfg : ServerCfg :=
  { hostname := "", welcomeMessage := "", readTimeout := 0, writeTimeout := 0,
    dataTimeout := 0, maxConnections := 0, maxMessageSize := 0,
    maxRecipients := 0, hasAuthenticator := false, enableXCLIENT := false,
    hasTLSConfig := false, forceTLS := false }

/-- The default materialization of the zero configuration. -/
def defaultedZeroCfg : ServerCfg :=
  { hostname := "localhost.localdomain",
    welcomeMessage := "localhost.localdomain ESMTP ready.",
    readTimeout := 60000000000, writeTimeout := 60000000000,
    dataTimeout := 300000000000, maxConnections := 100,
    maxMessageSize := 10240000, maxRecipients := 100,
    hasAuthenticator := false, enableXCLIENT := false, hasTLSConfig := false,
    forceTLS := false }

end Smtpd

namespace Auth

/-- The smtp.ServerInfo fields read by Start. -/
structure ServerInfo where
  name : String
  tls : Bool
deriving DecidableEq, Repr

/-- The xoauth2Auth client mechanism: an access token and the expected
host. -/
structure XOAuth2Auth where
  accessToken : String
  host : String
deriving DecidableEq, Repr

/-- Modelled from the spec: the package helper isLocalhost is defined in a
repository file not under src/, so Start below takes the predicate as a
parameter; this concrete instance (the conventional local host names) is used
to evaluate it. -/
def isLocalhostModel (name : String) : Bool :=
  name == "localhost" || name == "127.0.0.1" || name == "::1"

/-- xoauth2Auth.Start: refuse to run over an unencrypted connection to a
non-local server, refuse a server name different from the configured host,
otherwise offer mechanism XOAUTH2 with an empty initial response. -/
def start (isLocalhost : String → Bool) (a : XOAuth2Auth) (server : ServerInfo) :
    Except String (String × String) :=
  if !server.tls && !isLocalhost server.name then .error "unencrypted connection"
  else if server.name != a.host then .error "wrong host name"
  else .ok ("XOAUTH2", "")

/-- xoauth2Auth.Next: when the server asks for more, send the access token. -/
def next (a : XOAuth2Auth) (more : Bool) : Option String :=
  if more then some a.accessToken else none

end Auth

section Helpers

open Smtpd

/-- No string starting with the SIZE prefix is one of the fixed extension
keywords. -/
theorem aux_ne_size_8bitmime (x : String) : "8BITMIME" ≠ "SIZE " ++ x := by
  intro h
  have h2 := congrArg String.data h
  simp [String.data_append] at h2

theorem aux_ne_size_pipelining (x : String) : "PIPELINING" ≠ "SIZE " ++ x := by
  intro h
  have h2 := congrArg String.data h
  simp [String.data_append] at h2

theorem aux_ne_size_starttls (x : String) : "STARTTLS" ≠ "SIZE " ++ x := by
  intro h
  have h2 := congrArg String.data h
  simp [String.data_append] at h2

theorem aux_ne_size_auth (x : String) : "AUTH PLAIN LOGIN" ≠ "SIZE " ++ x := by
  intro h
  have h2 := congrArg String.data h
  simp [String.data_append] at h2

theorem aux_ne_size_xclient (x : String) : "XCLIENT" ≠ "SIZE " ++ x := by
  intro h
  have h2 := congrArg String.data h
  simp [String.data_append] at h2

/-- Discarding bytes up to and including the first newline leaves exactly the
suffix after that newline. -/
theorem aux_readPastNewline_eq (pre post : List Char) (hpre : newlineChar ∉ pre) :
    readPastNewline (pre ++ newlineChar :: post) = post := by
  induction pre with
  | nil => simp [readPastNewline, newlineChar]
  | cons c cs ih =>
      have hc : ¬ (c = '\n') := by
        intro h; exact hpre (by simp [newlineChar, h])
      have hcs : newlineChar ∉ cs := by
        intro hm; exact hpre (List.mem_cons_of_mem c hm)
      rw [List.cons_append, readPastNewline, if_neg hc]
      exact ih hcs

/-- configureDefaults touches maxConnections only to replace a zero by 100. -/
theorem aux_configureDefaults_maxConnections (srv srv2 : ServerCfg)
    (h : configureDefaults srv = some srv2) :
    srv2.maxConnections = if srv.maxConnections = 0 then 100 else srv.maxConnections := by
  unfold configureDefaults at h
  by_cases hb : (withDefaultSizes srv).forceTLS && !(withDefaultSizes srv).hasTLSConfig
  · simp [hb] at h
  · simp [hb] at h
    subst h
    rfl

end Helpers

/-- C2: the session error writer formats a typed SMTP error as exactly the
single line made of the zero-padded code, a space, the message and CRLF, and
formats any other error as the 502 reply line carrying the error text. -/
theorem c2_session_error_format (code : Nat) (msg : String) (t : String) :
    Smtpd.sessionErrorLine (Smtpd.GoError.smtp code msg) =
      Smtpd.pad3 code ++ " " ++ msg ++ Smtpd.crlf ∧
    Smtpd.sessionErrorLine (Smtpd.GoError.other t) = "502 " ++ t ++ Smtpd.crlf := by
  constructor
  · rfl
  · have h : (toString (502 : Nat) ++ " ") = "502 " := by decide
    simp [Smtpd.sessionErrorLine, Smtpd.replyLine, Smtpd.GoError.text, h]

/-- C5: the EHLO extension list always contains the SIZE line for the
configured maximum message size, 8BITMIME and PIPELINING; it contains
STARTTLS exactly when a TLS config is set and the session is not yet on TLS;
AUTH PLAIN LOGIN exactly when an authenticator is configured and the session
is on TLS; and XCLIENT exactly when XCLIENT support is enabled. -/
theorem c5_ehlo_extensions (srv : Smtpd.ServerCfg) (sessionTLS : Bool) :
    ("SIZE " ++ toString srv.maxMessageSize) ∈ Smtpd.extensions srv sessionTLS ∧
    "8BITMIME" ∈ Smtpd.extensions srv sessionTLS ∧
    "PIPELINING" ∈ Smtpd.extensions srv sessionTLS ∧
    ("STARTTLS" ∈ Smtpd.extensions srv sessionTLS ↔
        srv.hasTLSConfig = true ∧ sessionTLS = false) ∧
    ("AUTH PLAIN LOGIN" ∈ Smtpd.extensions srv sessionTLS ↔
        srv.hasAuthenticator = true ∧ sessionTLS = true) ∧
    ("XCLIENT" ∈ Smtpd.extensions srv sessionTLS ↔ srv.enableXCLIENT = true) := by
  unfold Smtpd.extensions
  cases hx : srv.enableXCLIENT <;> cases ht : srv.hasTLSConfig <;>
    cases ha : srv.hasAuthenticator <;> cases hs : sessionTLS <;>
      simp [aux_ne_size_8bitmime, aux_ne_size_pipelining, aux_ne_size_starttls,
        aux_ne_size_auth, aux_ne_size_xclient]

/-- C9: a session created over a connection that is already TLS starts with
its TLS flag set and the peer TLS state populated from the handshake, and a
session created over a plain connection starts with the flag unset and no
peer TLS state. -/
theorem c9_new_session_tls (srv : Smtpd.ServerCfg) (addr : String)
    (st : Smtpd.TLSState) (input : List Char) :
    (Smtpd.newSession srv (.tls addr st) input).tls = true ∧
    (Smtpd.newSession srv (.tls addr st) input).peer.tlsState = some st ∧
    (Smtpd.newSession srv (.plain addr) input).tls = false ∧
    (Smtpd.newSession srv (.plain addr) input).peer.tlsState = none ∧
    (Smtpd.newSession srv (.tls addr st) input).envelope = none ∧
    (Smtpd.newSession srv (.plain addr) input).envelope = none := by
  simp [Smtpd.newSession]

/-- C1: with the limiter created by Serve (capacity N, created exactly when
the configured max_connections is the positive N), every reachable admission
state holds at most N slots, so at most N sessions execute simultaneously; a
full state admits no further session, the accept path from a full state is
the reject step, and session.reject writes the typed 421 busy reply and
closes the connection instead of queueing it. -/
theorem c1_connection_cap (N : Nat) (hN : 0 < N) (s : Smtpd.SupState)
    (h : Smtpd.SupReach N s) :
    s.active ≤ N ∧
    (∀ t : Smtpd.SupState, s.active = N → ¬ Smtpd.SupStep N s .acquire t) ∧
    (s.active = N → Smtpd.SupStep N s .reject s) ∧
    (∀ srv srv2 : Smtpd.ServerCfg, srv.maxConnections = (N : Int) →
        Smtpd.configureDefaults srv = some srv2 →
        Smtpd.limiterCapacity srv2 = some N) ∧
    Smtpd.rejectOutputs =
      [Smtpd.Out.wrote ("421 Too busy. Try again later." ++ Smtpd.crlf),
       Smtpd.Out.closedConn] ∧
    Smtpd.ErrBusy = Smtpd.GoError.smtp 421 "Too busy. Try again later." := by
  refine ⟨?_, ?_, ?_, ?_, by decide, rfl⟩
  · induction h with
    | init => exact Nat.zero_le N
    | step hr hstep ih =>
        cases hstep with
        | acquire hlt => exact hlt
        | reject hge => exact ih
        | finish a heq =>
            show a ≤ N
            omega
  · intro t heq hstep
    cases hstep with
    | acquire hlt => omega
  · intro heq
    exact Smtpd.SupStep.reject s (by omega)
  · intro srv srv2 hmc hcd
    have hm := aux_configureDefaults_maxConnections srv srv2 hcd
    have hne : srv.maxConnections ≠ 0 := by
      rw [hmc]; exact_mod_cast Nat.pos_iff_ne_zero.mp hN
    rw [if_neg hne, hmc] at hm
    have hpos : (0 : Int) < (N : Int) := by exact_mod_cast hN
    simp [Smtpd.limiterCapacity, hm, hpos]

/-- C1 witness: capacity one, initial (idle) state. -/
theorem c1_connection_cap_witness :
    (Smtpd.SupState.mk 0).active ≤ 1 ∧
    Smtpd.ErrBusy = Smtpd.GoError.smtp 421 "Too busy. Try again later." := by
  have h := c1_connection_cap 1 (by decide) ⟨0⟩ Smtpd.SupReach.init
  exact ⟨h.1, h.2.2.2.2.2⟩

/-- C3: on a server whose listener is wrapped and not yet closed, calling
Shutdown twice returns without error both times (the underlying Close
returning nil), the underlying listener Close runs exactly once, and the done
channel is closed exactly once. -/
theorem c3_shutdown_idempotent (s0 : Smtpd.ServerState)
    (hL : s0.listener = some { fired := false, closeErr := none })
    (hC : s0.underlyingCloseCount = 0)
    (hD : s0.doneClosed = false) (hDC : s0.doneCloseCount = 0) :
    (Smtpd.Shutdown s0 none).2 = none ∧
    (Smtpd.Shutdown (Smtpd.Shutdown s0 none).1 none).2 = none ∧
    (Smtpd.Shutdown (Smtpd.Shutdown s0 none).1 none).1.underlyingCloseCount = 1 ∧
    (Smtpd.Shutdown (Smtpd.Shutdown s0 none).1 none).1.doneCloseCount = 1 := by
  obtain ⟨inS, dCr, dCl, dCC, l, uCC, p⟩ := s0
  simp only at hL hC hD hDC
  subst hL hC hD hDC
  cases dCr <;>
    simp [Smtpd.Shutdown, Smtpd.closeDoneChanLocked, Smtpd.getDoneChanLocked,
      Smtpd.OnceCloseListener.closeOp]

/-- C3 witness: the fresh served state. -/
theorem c3_shutdown_idempotent_witness :
    (Smtpd.Shutdown Smtpd.freshServedState none).2 = none ∧
    (Smtpd.Shutdown (Smtpd.Shutdown Smtpd.freshServedState none).1 none).2 = none ∧
    (Smtpd.Shutdown (Smtpd.Shutdown Smtpd.freshServedState none).1
        none).1.underlyingCloseCount = 1 ∧
    (Smtpd.Shutdown (Smtpd.Shutdown Smtpd.freshServedState none).1
        none).1.doneCloseCount = 1 :=
  c3_shutdown_idempotent Smtpd.freshServedState rfl rfl rfl rfl

/-- C4: when the scanner stops with the line-overflow error, the session
writes the typed 500 line-too-long reply, discards the buffered input up to
and including the next newline, discards the in-progress envelope, and
continues the loop on the same connection (it does not close it). -/
theorem c4_line_too_long (s : Smtpd.SessionRec) (pre post : List Char)
    (hin : s.input = pre ++ Smtpd.newlineChar :: post)
    (hpre : Smtpd.newlineChar ∉ pre) :
    Smtpd.handleScanStop s .tooLong =
      ([Smtpd.Out.wrote ("500 Line too long" ++ Smtpd.crlf)],
       { s with envelope := none, input := post }, true) ∧
    Smtpd.ErrLineTooLong = Smtpd.GoError.smtp 500 "Line too long" := by
  refine ⟨?_, rfl⟩
  have hline : Smtpd.sessionErrorLine Smtpd.ErrLineTooLong =
      "500 Line too long" ++ Smtpd.crlf := by decide
  simp only [Smtpd.handleScanStop, hline, hin,
    aux_readPastNewline_eq pre post hpre]

/-- C4 witness: a session holding an envelope, with one overlong byte before
the newline and one byte after it. -/
theorem c4_line_too_long_witness :
    Smtpd.handleScanStop
      ⟨⟨"203.0.113.5:25", none, "client", "", "", "relay"⟩, false,
        some ⟨"a@x", ["b@y"], []⟩, ['a', '\n', 'b'], false⟩ Smtpd.ScanStop.tooLong =
      ([Smtpd.Out.wrote ("500 Line too long" ++ Smtpd.crlf)],
       ⟨⟨"203.0.113.5:25", none, "client", "", "", "relay"⟩, false, none,
        ['b'], false⟩, true) :=
  (c4_line_too_long
    ⟨⟨"203.0.113.5:25", none, "client", "", "", "relay"⟩, false,
      some ⟨"a@x", ["b@y"], []⟩, ['a', '\n', 'b'], false⟩ ['a'] ['b'] rfl
    (by decide)).1

/-- C6: once the in-shutdown flag is set, Serve returns the server-closed
error without entering the accept loop or accepting anything, and
ListenAndServe returns it without creating a listener. -/
theorem c6_serve_after_shutdown (s : Smtpd.ServerState)
    (h : Smtpd.shuttingDown s = true) (srv : Smtpd.ServerCfg)
    (script : List Smtpd.AcceptEvent) (d : Bool) (listenErr : Option String) :
    Smtpd.Serve s srv script d =
      some { listenerCreated := false, loopEntered := false, accepted := 0,
             result := some Smtpd.errServerClosedMsg } ∧
    Smtpd.ListenAndServe s srv listenErr script d =
      some { listenerCreated := false, loopEntered := false, accepted := 0,
             result := some Smtpd.errServerClosedMsg } := by
  constructor <;> simp [Smtpd.Serve, Smtpd.ListenAndServe, h]

/-- C6 witness: the drained shutdown state with an empty accept script. -/
theorem c6_serve_after_shutdown_witness :
    Smtpd.Serve Smtpd.drainedShutdownState Smtpd.zeroCfg [] false =
      some { listenerCreated := false, loopEntered := false, accepted := 0,
             result := some Smtpd.errServerClosedMsg } ∧
    Smtpd.ListenAndServe Smtpd.drainedShutdownState Smtpd.zeroCfg none [] false =
      some { listenerCreated := false, loopEntered := false, accepted := 0,
             result := some Smtpd.errServerClosedMsg } :=
  c6_serve_after_shutdown Smtpd.drainedShutdownState rfl Smtpd.zeroCfg [] false none

/-- C7: Wait returns the not-shutdown error exactly when the in-shutdown flag
is unset at the call; with the flag set it can only return nil, and only once
every session task has returned. -/
theorem c7_wait (s : Smtpd.ServerState) (r : Option String)
    (h : Smtpd.WaitReturns s r) :
    (r = some Smtpd.waitNotShutdownMsg ↔ s.inShutdown = false) ∧
    (s.inShutdown = true → r = none ∧ s.pending = 0) := by
  cases h with
  | notShutdown hf => exact ⟨⟨fun _ => hf, fun _ => rfl⟩, by simp [hf]⟩
  | allDone h1 h2 => exact ⟨by simp [h1], fun _ => ⟨rfl, h2⟩⟩

/-- C7 witness: the drained shutdown state, where Wait returns nil. -/
theorem c7_wait_witness :
    ((none : Option String) = some Smtpd.waitNotShutdownMsg ↔
        Smtpd.drainedShutdownState.inShutdown = false) ∧
    (Smtpd.drainedShutdownState.inShutdown = true →
        (none : Option String) = none ∧ Smtpd.drainedShutdownState.pending = 0) :=
  c7_wait Smtpd.drainedShutdownState none
    (Smtpd.WaitReturns.allDone Smtpd.drainedShutdownState rfl rfl)

/-- C8 counterexample: with configured max_connections = 0, the defaults set
the field to 100 and Serve creates a limiter of capacity 100, so the cap is
not disabled at this non-positive configured value. -/
theorem c8_counterexample :
    Option.map Smtpd.limiterCapacity (Smtpd.configureDefaults Smtpd.zeroCfg) =
      some (some 100) ∧
    Option.map Smtpd.limiterCapacity (Smtpd.configureDefaults Smtpd.zeroCfg) ≠
      some none := by
  decide

/-- C8 amended: a configured max_connections of exactly 0 is replaced by the
default 100 and the cap is enforced at 100; only a negative configured value
disables the cap (no limiter is created). -/
theorem c8_amended (srv srv2 : Smtpd.ServerCfg)
    (h : Smtpd.configureDefaults srv = some srv2) :
    (srv.maxConnections = 0 →
        srv2.maxConnections = 100 ∧ Smtpd.limiterCapacity srv2 = some 100) ∧
    (srv.maxConnections < 0 →
        srv2.maxConnections = srv.maxConnections ∧
        Smtpd.limiterCapacity srv2 = none) := by
  have hm := aux_configureDefaults_maxConnections srv srv2 h
  constructor
  · intro h0
    rw [h0] at hm
    simp only [if_pos rfl] at hm
    refine ⟨hm, ?_⟩
    simp [Smtpd.limiterCapacity, hm]
  · intro hneg
    have hne : srv.maxConnections ≠ 0 := by omega
    rw [if_neg hne] at hm
    refine ⟨hm, ?_⟩
    simp only [Smtpd.limiterCapacity, hm]
    rw [if_neg (by omega)]

/-- C8 amended witness: the zero configuration. -/
theorem c8_amended_witness :
    Smtpd.zeroCfg.maxConnections = 0 ∧
    Smtpd.defaultedZeroCfg.maxConnections = 100 ∧
    Smtpd.limiterCapacity Smtpd.defaultedZeroCfg = some 100 := by
  have h := (c8_amended Smtpd.zeroCfg Smtpd.defaultedZeroCfg (by decide)).1 rfl
  exact ⟨rfl, h.1, h.2⟩

/-- C10: Start refuses with an error (offering no mechanism) whenever the
connection is not TLS and the server name is not local, and whenever the
server name differs from the configured host; otherwise it returns mechanism
XOAUTH2 with an empty initial response. Stated for an arbitrary isLocalhost
predicate, since that helper lives in a file not under src. -/
theorem c10_xoauth2_start (isLocal : String → Bool) (a : Auth.XOAuth2Auth)
    (server : Auth.ServerInfo) :
    ((server.tls = false ∧ isLocal server.name = false) →
        Auth.start isLocal a server = .error "unencrypted connection") ∧
    (server.name ≠ a.host → ∃ e, Auth.start isLocal a server = .error e) ∧
    (((server.tls = true ∨ isLocal server.name = true) ∧ server.name = a.host) →
        Auth.start isLocal a server = .ok ("XOAUTH2", "")) := by
  unfold Auth.start
  refine ⟨?_, ?_, ?_⟩
  · rintro ⟨h1, h2⟩
    simp [h1, h2]
  · intro hne
    by_cases h1 : server.tls <;> by_cases h2 : isLocal server.name <;>
      simp [h1, h2, hne]
  · rintro ⟨h1, h2⟩
    rcases h1 with h1 | h1
    · simp [h1, h2]
    · rw [h2] at h1
      simp [h1, h2]

/-- C10 witness: a plain connection to localhost with matching host. -/
theorem c10_xoauth2_start_witness :
    Auth.start Auth.isLocalhostModel ⟨"tok", "localhost"⟩ ⟨"localhost", false⟩ =
      Except.ok ("XOAUTH2", "") :=
  (c10_xoauth2_start Auth.isLocalhostModel ⟨"tok", "localhost"⟩
    ⟨"localhost", false⟩).2.2 ⟨Or.inr (by decide), rfl⟩
